import Mathlib

/-!
Shallow embedding of the RustyClaw gateway core: the messenger tool loop
(src/src/gateway/messenger_handler.rs), the tool catalog dispatch
(src/src/tools/mod.rs), the secrets access-policy types
(src/src/secrets/types.rs) and the WebSocket gateway frame handling
(src/src/gateway.rs), together with theorems settling the spec claims.

Conventions: Rust `Vec<T>` becomes `List T`, `Option<T>` becomes
`Option T`, `Result<A, E>` becomes `Except E A`.  External effects (the
provider HTTP call, the concrete tool executors, the secrets and skills
handlers) are passed in as function-valued parameters of a `LoopEnv`
record, so the orchestration logic itself is a pure total function.
-/

/-- Minimal model of `serde_json::Value` (numbers collapsed to `Int`;
floating point is irrelevant to every claim). Tool arguments and other
opaque payloads are carried as this type. -/
inductive Json where
  | null
  | bool (b : Bool)
  | num (n : Int)
  | str (s : String)
  | arr (elems : List Json)
  | obj (fields : List (String × Json))

/-- A tool call requested by the model.  Fields as constructed and read in
`process_incoming_message` (`tc.id`, `tc.name`, `tc.arguments`). -/
structure ToolCall where
  id : String
  name : String
  arguments : Json

/-- The normalized provider response, as read by the messenger tool loop
(`model_resp.text`, `model_resp.tool_calls`); usage metadata is dropped as
no claim touches it. -/
structure ModelResponse where
  text : String
  tool_calls : List ToolCall

/-- The result of one executed tool call, as built in
`process_incoming_message` (fields `id`, `name`, `output`, `is_error`). -/
structure ToolCallResult where
  id : String
  name : String
  output : String
  is_error : Bool

/-- A conversation message of the gateway's internal shape: role, optional
text content, optional requested tool calls, optional tool-call
correlation id.  The messenger path constructs only `system`, `user` and
`assistant` messages with `tool_calls = none` and `tool_call_id = none`. -/
structure ChatMessage where
  role : String
  content : Option String
  tool_calls : Option (List ToolCall)
  tool_call_id : Option String

/-- The normalized provider request threaded through the tool loop.  The
plumbing fields that the loop never inspects (api key, rendered tool
schemas, max tokens, temperature, thinking) are elided; the loop mutates
only `messages`. -/
structure ProviderRequest where
  provider : String
  model : String
  messages : List ChatMessage

-- ── Tool catalog dispatch (src/src/tools/mod.rs) ────────────────────────────

/-- `is_secrets_tool` from src/src/tools/mod.rs: tools routed through the
gateway's secrets handler. -/
def is_secrets_tool (name : String) : Bool :=
  name == "secrets_list" || name == "secrets_get" || name == "secrets_store"

/-- `is_skill_tool` from src/src/tools/mod.rs: skill-management tools routed
through the gateway's skills handler. -/
def is_skill_tool (name : String) : Bool :=
  name == "skill_list" || name == "skill_search" || name == "skill_install" ||
  name == "skill_info" || name == "skill_enable" || name == "skill_link_secret"

/-- One catalog entry: a tool name with its executor.  The executor body is
external (file system, shell, web); only its uniform signature
`(arguments, workspace_dir) → Result<String, String>` matters. -/
structure ToolDef where
  name : String
  execute : Json → String → Except String String

/-- `execute_tool` from src/src/tools/mod.rs: find the first tool with the
given name and run it; an unknown name yields the error string
`Unknown tool: <name>`. -/
def execute_tool (tools : List ToolDef) (name : String) (args : Json)
    (workspace_dir : String) : Except String String :=
  match tools.find? (fun t => t.name == name) with
  | some t => t.execute args workspace_dir
  | none => Except.error ("Unknown tool: " ++ name)

-- ── The messenger tool loop (src/src/gateway/messenger_handler.rs) ──────────

/-- External collaborators of the tool loop, passed as functions: the
provider HTTP call (three-way provider dispatch included), the secrets
handler, the skills handler, the static tool catalog and the workspace
directory. -/
structure LoopEnv where
  callProvider : ProviderRequest → Except String ModelResponse
  execSecrets : String → Json → Except String String
  execSkill : String → Json → Except String String
  tools : List ToolDef
  workspace : String

/-- The three-way routing of one requested tool call inside the loop body:
secrets tools to the secrets handler, skill tools to the skills handler,
everything else to `execute_tool`. -/
def dispatch_tool_call (env : LoopEnv) (tc : ToolCall) : Except String String :=
  if is_secrets_tool tc.name then env.execSecrets tc.name tc.arguments
  else if is_skill_tool tc.name then env.execSkill tc.name tc.arguments
  else execute_tool env.tools tc.name tc.arguments env.workspace

/-- Packaging of one dispatch outcome as the `ToolCallResult` pushed by the
loop: `Ok(text)` becomes `(text, false)`, `Err(err)` becomes `(err, true)`. -/
def run_tool_call (env : LoopEnv) (tc : ToolCall) : ToolCallResult :=
  match dispatch_tool_call env tc with
  | Except.ok text => { id := tc.id, name := tc.name, output := text, is_error := false }
  | Except.error err => { id := tc.id, name := tc.name, output := err, is_error := true }

/-- The inner `for tc in &model_resp.tool_calls` loop: every requested call
is executed in emitted order and contributes exactly one result. -/
def executeToolCalls (env : LoopEnv) (calls : List ToolCall) : List ToolCallResult :=
  calls.map (run_tool_call env)

/-- Modelled from the spec: `providers::append_tool_round` lives in the
gateway provider module, which is not under src/ (only its caller
`process_incoming_message` is).  Per spec §4.3 it appends one assistant
entry carrying the emitted tool calls, then one tool-result entry per
result, preserving execution order. -/
def append_tool_round (messages : List ChatMessage) (resp : ModelResponse)
    (results : List ToolCallResult) : List ChatMessage :=
  (messages ++
    [{ role := "assistant",
       content := if resp.text == "" then none else some resp.text,
       tool_calls := some resp.tool_calls,
       tool_call_id := none }]) ++
  results.map (fun r =>
    { role := "tool", content := some r.output,
      tool_calls := none, tool_call_id := some r.id })

/-- How one run of the tool loop ends: `failed e` models the early
`return Err(err)` on a provider error; `finished s` models falling out of
the `for` loop (by `break` on an empty tool-call list or by exhausting the
round budget) with accumulated reply text `s`. -/
inductive LoopOutcome where
  | failed (err : String)
  | finished (final_response : String)

/-- One finished run: its outcome plus how many provider calls were made
(observational instrumentation; the source has no such counter). -/
structure LoopRun where
  outcome : LoopOutcome
  providerCalls : Nat

/-- Maximum tool loop rounds (src/src/gateway/messenger_handler.rs line 43). -/
def MAX_TOOL_ROUNDS : Nat := 25

/-- The `for _round in 0..MAX_TOOL_ROUNDS` tool loop of
`process_incoming_message`, with the remaining round budget as the
recursion fuel: call the provider (error propagates out), accumulate the
response text, stop if there are no tool calls, otherwise execute every
call in order, append the round, and continue. -/
def runToolLoop (env : LoopEnv) : Nat → ProviderRequest → String → LoopRun
  | 0, _req, acc => { outcome := LoopOutcome.finished acc, providerCalls := 0 }
  | fuel + 1, req, acc =>
    match env.callProvider req with
    | Except.error e => { outcome := LoopOutcome.failed e, providerCalls := 1 }
    | Except.ok resp =>
      let acc2 := if resp.text == "" then acc else acc ++ resp.text
      if resp.tool_calls.isEmpty then
        { outcome := LoopOutcome.finished acc2, providerCalls := 1 }
      else
        let results := executeToolCalls env resp.tool_calls
        let req2 := { req with messages := append_tool_round req.messages resp results }
        let rest := runToolLoop env fuel req2 acc2
        { outcome := rest.outcome, providerCalls := rest.providerCalls + 1 }

-- ── Conversation store and post-loop processing ─────────────────────────────

/-- Maximum messages kept per chat (src/src/gateway/messenger_handler.rs
line 40). -/
def MAX_HISTORY_MESSAGES : Nat := 50

/-- One-pass embedding of the trimming `while` loop of
`process_incoming_message` (lines 440-446): while the history is longer
than the cap, remove the entry at index 1 unless it is a system message
(in which case the loop breaks).  The while loop removes one element per
iteration, so `history.length` is always enough fuel. -/
def trimLoop : Nat → List ChatMessage → List ChatMessage
  | 0, h => h
  | fuel + 1, h =>
    if h.length > MAX_HISTORY_MESSAGES then
      match h with
      | h0 :: h1 :: rest =>
        if h1.role == "system" then h0 :: h1 :: rest
        else trimLoop fuel (h0 :: rest)
      | other => other
    else h

/-- The trimming step applied to a stored history. -/
def trimHistory (h : List ChatMessage) : List ChatMessage :=
  trimLoop h.length h

/-- A stored user message as pushed by the messenger path. -/
def userMsg (content : String) : ChatMessage :=
  { role := "user", content := some content, tool_calls := none, tool_call_id := none }

/-- A stored assistant message as pushed by the messenger path. -/
def assistantMsg (content : String) : ChatMessage :=
  { role := "assistant", content := some content, tool_calls := none, tool_call_id := none }

/-- The history update block of `process_incoming_message` (lines 416-447):
push the user message, push the assistant reply when non-empty, then trim. -/
def updateHistory (old : List ChatMessage) (userContent final_response : String) :
    List ChatMessage :=
  let h1 := old ++ [userMsg userContent]
  let h2 := if final_response == "" then h1 else h1 ++ [assistantMsg final_response]
  trimHistory h2

/-- The per-request working copy built at lines 264-295: insert the system
message at index 0 if absent (refreshing its content when present), then
push the incoming user message.  This copy feeds the provider request and
is never written back to the store. -/
def buildWorkingMessages (old : List ChatMessage) (system_prompt userContent : String) :
    List ChatMessage :=
  let base :=
    match old with
    | [] =>
      [{ role := "system", content := some system_prompt,
         tool_calls := none, tool_call_id := none }]
    | m0 :: rest =>
      if m0.role == "system" then { m0 with content := some system_prompt } :: rest
      else
        { role := "system", content := some system_prompt,
          tool_calls := none, tool_call_id := none } :: m0 :: rest
  base ++ [userMsg userContent]

/-- The Unicode `White_Space` property, the character class stripped by
Rust `char::is_whitespace` / `str::trim`: U+0009..U+000D, U+0020, U+0085,
U+00A0, U+1680, U+2000..U+200A, U+2028, U+2029, U+202F, U+205F, U+3000. -/
def isRustWhitespace (c : Char) : Bool :=
  let n := c.toNat
  (decide (0x0009 ≤ n) && decide (n ≤ 0x000D)) || n == 0x0020 || n == 0x0085 ||
  n == 0x00A0 || n == 0x1680 ||
  (decide (0x2000 ≤ n) && decide (n ≤ 0x200A)) || n == 0x2028 || n == 0x2029 ||
  n == 0x202F || n == 0x205F || n == 0x3000

/-- Model of Rust `str::trim`: drop leading and trailing Unicode
`White_Space` characters.  Defined structurally over the character list
(unlike `String.trim`, whose auxiliary functions do not reduce in the
kernel, and whose whitespace class is narrower than Rust's). -/
def strTrim (s : String) : String :=
  String.mk (((s.data.dropWhile isRustWhitespace).reverse.dropWhile
    isRustWhitespace).reverse)

/-- The outbound-send decision at lines 450-453: send the reply unless it
is empty or trims to one of the sentinels `NO_REPLY` / `HEARTBEAT_OK`. -/
def sendDecision (final_response : String) : Option String :=
  if !final_response.isEmpty
      && strTrim final_response != "NO_REPLY"
      && strTrim final_response != "HEARTBEAT_OK"
  then some final_response
  else none

/-- End-to-end model of `process_incoming_message` for one inbound
messenger message: build the working copy, run the bounded tool loop, and
on success return the updated stored history together with the outbound
send decision.  A provider error propagates as `Except.error` (the Rust
`return Err(err)`), skipping both the history update and the send. -/
def process_incoming_message (env : LoopEnv) (provider model : String)
    (oldHistory : List ChatMessage) (system_prompt userContent : String) :
    Except String (List ChatMessage × Option String) :=
  let working := buildWorkingMessages oldHistory system_prompt userContent
  let req : ProviderRequest := { provider := provider, model := model, messages := working }
  let run := runToolLoop env MAX_TOOL_ROUNDS req ""
  match run.outcome with
  | LoopOutcome.failed e => Except.error e
  | LoopOutcome.finished final =>
    Except.ok (updateHistory oldHistory userContent final, sendDecision final)

-- ── Secrets vault policy (src/src/secrets/types.rs) ─────────────────────────

/-- `SecretKind` from src/src/secrets/types.rs. -/
inductive SecretKind where
  | apiKey | httpPasskey | usernamePassword | sshKey | token
  | formAutofill | paymentMethod | secureNote | other
deriving DecidableEq

/-- `AccessPolicy` from src/src/secrets/types.rs: when the agent may read a
credential. -/
inductive AccessPolicy where
  | always
  | withApproval
  | withAuth
  | skillOnly (skills : List String)
deriving DecidableEq

/-- `AccessContext` from src/src/secrets/types.rs: caller-supplied context
evaluated against a credential's policy. -/
structure AccessContext where
  user_approved : Bool
  authenticated : Bool
  active_skill : Option String
deriving DecidableEq

/-- `SecretEntry` from src/src/secrets/types.rs (metadata envelope). -/
structure SecretEntry where
  label : String
  kind : SecretKind
  policy : AccessPolicy
  description : Option String
  disabled : Bool
deriving DecidableEq

/-- Modelled from the spec: the `SecretsManager` policy evaluator is not
under src/ (only the `AccessPolicy` and `AccessContext` types are).  The
grant table is §4.1 of the spec — `always` unconditionally,
`with-approval` iff `user_approved`, `with-auth` iff `authenticated`,
`skill-only(S)` iff the active skill is a member of `S` — matching the
doc comments on `AccessPolicy` in src/src/secrets/types.rs. -/
def policyGrants (policy : AccessPolicy) (ctx : AccessContext) : Bool :=
  match policy with
  | AccessPolicy.always => true
  | AccessPolicy.withApproval => ctx.user_approved
  | AccessPolicy.withAuth => ctx.authenticated
  | AccessPolicy.skillOnly skills =>
    match ctx.active_skill with
    | some s => skills.contains s
    | none => false

/-- Vault failure cases relevant to `get` (spec §4.1). -/
inductive VaultError where
  | notFound
  | policyDenied
  | disabled
deriving DecidableEq

/-- One stored credential: name, metadata envelope, decrypted value. -/
structure VaultRecord where
  name : String
  entry : SecretEntry
  value : String
deriving DecidableEq

/-- Modelled from the spec: the vault `get` operation is not under src/.
Per spec §4.1, `get(name, ctx)` fails with `not-found` for unknown names,
with `disabled` for disabled entries, with `policy-denied` when the
entry's policy does not grant under `ctx`, and otherwise returns the
value. -/
def vault_get (records : List VaultRecord) (name : String) (ctx : AccessContext) :
    Except VaultError String :=
  match records.find? (fun r => r.name == name) with
  | none => Except.error VaultError.notFound
  | some r =>
    if r.entry.disabled then Except.error VaultError.disabled
    else if policyGrants r.entry.policy ctx then Except.ok r.value
    else Except.error VaultError.policyDenied

-- ── WebSocket gateway (src/src/gateway.rs) ──────────────────────────────────

/-- `ChatMessage` from src/src/gateway.rs (the wire-protocol shape: role
and mandatory content only). -/
structure GwChatMessage where
  role : String
  content : String
deriving DecidableEq

/-- `ChatRequest` from src/src/gateway.rs: the structured chat envelope. -/
structure ChatRequest where
  msg_type : String
  messages : List GwChatMessage
  model : String
  provider : String
  base_url : String
  api_key : Option String
deriving DecidableEq

/-- Outbound frames of `handle_connection`, with the JSON payloads of the
source (`json!` objects serialized to text frames) represented
structurally: `hello` carries `agent` and `settings_dir`; `response`
carries `ok` and `received`; `error` carries `ok` and `message`; `pong`
answers a ping. -/
inductive GatewayReply where
  | hello (agent : String) (settings_dir : String)
  | response (ok : Bool) (received : String)
  | error (ok : Bool) (message : String)
  | pong (payload : List Nat)
deriving DecidableEq

/-- Inbound WebSocket messages handled by `handle_connection`. -/
inductive WsIncoming where
  | text (t : String)
  | binary (payload : List Nat)
  | close
  | ping (payload : List Nat)
  | pong (payload : List Nat)
deriving DecidableEq

/-- `handle_text_message` from src/src/gateway.rs: parse the frame as a
`ChatRequest`; when it parses and its type is `chat`, run the chat request
(the provider call is the abstract `call`, mapped to a `response` or
`error` frame exactly as `handle_chat_request` does); anything else falls
back to the echo response carrying the inbound text verbatim.  `parse`
abstracts `serde_json::from_str::<ChatRequest>`. -/
def handle_text_message (parse : String → Option ChatRequest)
    (call : ChatRequest → Except String String) (text : String) : GatewayReply :=
  match parse text with
  | some req =>
    if req.msg_type == "chat" then
      match call req with
      | Except.ok reply => GatewayReply.response true reply
      | Except.error e => GatewayReply.error false e
    else GatewayReply.response true text
  | none => GatewayReply.response true text

/-- The receive loop of `handle_connection`: text frames are answered by
`handle_text_message`, binary frames by a structured error, pings by
pongs; a close frame ends the session; pongs and other frames are
ignored. -/
def processFrames (parse : String → Option ChatRequest)
    (call : ChatRequest → Except String String) : List WsIncoming → List GatewayReply
  | [] => []
  | WsIncoming.text t :: rest =>
    handle_text_message parse call t :: processFrames parse call rest
  | WsIncoming.binary _ :: rest =>
    GatewayReply.error false "Binary frames are not supported" :: processFrames parse call rest
  | WsIncoming.close :: _ => []
  | WsIncoming.ping p :: rest => GatewayReply.pong p :: processFrames parse call rest
  | WsIncoming.pong _ :: rest => processFrames parse call rest

/-- `handle_connection` from src/src/gateway.rs: one hello frame (agent
name `rustyclaw`, the configured settings directory) is sent on connect,
then the receive loop runs over the inbound frames. -/
def handle_connection (parse : String → Option ChatRequest)
    (call : ChatRequest → Except String String) (settings_dir : String)
    (frames : List WsIncoming) : List GatewayReply :=
  GatewayReply.hello "rustyclaw" settings_dir :: processFrames parse call frames

/-- Whether an outbound frame is the hello frame. -/
def GatewayReply.isHello : GatewayReply → Bool
  | GatewayReply.hello _ _ => true
  | _ => false

-- ── Lemmas about the trimming loop ──────────────────────────────────────────

theorem trimLoop_zero (h : List ChatMessage) : trimLoop 0 h = h := rfl

theorem trimLoop_succ_nil (n : Nat) : trimLoop (n + 1) [] = [] := rfl

theorem trimLoop_succ_one (n : Nat) (a : ChatMessage) : trimLoop (n + 1) [a] = [a] := rfl

/-- Unfolding of one iteration of the trimming loop on a history with at
least two entries. -/
theorem trimLoop_succ_cons (n : Nat) (a b : ChatMessage) (rest : List ChatMessage) :
    trimLoop (n + 1) (a :: b :: rest) =
      if (a :: b :: rest).length > MAX_HISTORY_MESSAGES then
        (if (b.role == "system") = true then a :: b :: rest
         else trimLoop n (a :: rest))
      else a :: b :: rest := rfl

/-- Every iteration of the trimming loop keeps the element at index 0. -/
theorem trimLoop_head? (fuel : Nat) (h : List ChatMessage) :
    (trimLoop fuel h).head? = h.head? := by
  induction fuel generalizing h with
  | zero => rfl
  | succ n ih =>
    cases h with
    | nil => rfl
    | cons a t =>
      cases t with
      | nil => rfl
      | cons b rest =>
        rw [trimLoop_succ_cons]
        by_cases hlen : (a :: b :: rest).length > MAX_HISTORY_MESSAGES
        · rw [if_pos hlen]
          by_cases hb : (b.role == "system") = true
          · rw [if_pos hb]
          · rw [if_neg hb, ih (a :: rest)]
            rfl
        · rw [if_neg hlen]

/-- The trimming loop only removes elements; it never adds any. -/
theorem trimLoop_mem (fuel : Nat) (h : List ChatMessage) (m : ChatMessage)
    (hm : m ∈ trimLoop fuel h) : m ∈ h := by
  induction fuel generalizing h with
  | zero => exact hm
  | succ n ih =>
    cases h with
    | nil => exact hm
    | cons a t =>
      cases t with
      | nil => exact hm
      | cons b rest =>
        rw [trimLoop_succ_cons] at hm
        by_cases hlen : (a :: b :: rest).length > MAX_HISTORY_MESSAGES
        · rw [if_pos hlen] at hm
          by_cases hb : (b.role == "system") = true
          · rw [if_pos hb] at hm
            exact hm
          · rw [if_neg hb] at hm
            have := ih (a :: rest) hm
            rcases List.mem_cons.mp this with h1 | h2
            · exact List.mem_cons.mpr (Or.inl h1)
            · exact List.mem_cons.mpr (Or.inr (List.mem_cons.mpr (Or.inr h2)))
        · rw [if_neg hlen] at hm
          exact hm

/-- States on which the trimming loop is the identity: histories at or
under the cap, and histories whose index-1 entry is a system message. -/
theorem trimLoop_fixed (fuel : Nat) (h : List ChatMessage)
    (hfix : h.length ≤ MAX_HISTORY_MESSAGES ∨
      ∃ a b rest, h = a :: b :: rest ∧ b.role = "system") :
    trimLoop fuel h = h := by
  cases fuel with
  | zero => rfl
  | succ n =>
    rcases hfix with hle | ⟨x, y, yrest, rfl, hy⟩
    · cases h with
      | nil => rfl
      | cons a t =>
        cases t with
        | nil => exact trimLoop_succ_one n a
        | cons b rest =>
          rw [trimLoop_succ_cons, if_neg (by omega)]
    · rw [trimLoop_succ_cons]
      by_cases hlen : (x :: y :: yrest).length > MAX_HISTORY_MESSAGES
      · rw [if_pos hlen, if_pos (by simpa using hy)]
      · rw [if_neg hlen]

/-- With enough fuel (the source `while` loop always has enough, since each
iteration removes one element), the trimming loop lands on a fixed point:
at or under the cap, or stopped on a system message at index 1. -/
theorem trimLoop_post (fuel : Nat) (h : List ChatMessage)
    (hfuel : h.length ≤ fuel + MAX_HISTORY_MESSAGES) :
    (trimLoop fuel h).length ≤ MAX_HISTORY_MESSAGES ∨
      ∃ a b rest, trimLoop fuel h = a :: b :: rest ∧ b.role = "system" := by
  induction fuel generalizing h with
  | zero => exact Or.inl (by simpa using hfuel)
  | succ n ih =>
    by_cases hlen : h.length > MAX_HISTORY_MESSAGES
    · cases h with
      | nil => simp at hlen
      | cons a t =>
        cases t with
        | nil =>
          exfalso
          simp only [List.length_cons, List.length_nil, MAX_HISTORY_MESSAGES] at hlen
          omega
        | cons b rest =>
          rw [trimLoop_succ_cons, if_pos hlen]
          by_cases hb : (b.role == "system") = true
          · rw [if_pos hb]
            exact Or.inr ⟨a, b, rest, rfl, by simpa using hb⟩
          · rw [if_neg hb]
            refine ih (a :: rest) ?_
            simp only [List.length_cons] at hfuel ⊢
            omega
    · rw [trimLoop_fixed (n + 1) h (Or.inl (by omega))]
      exact Or.inl (by omega)

/-- In a history whose tail contains no system message, the loop removes at
index 1 until the cap is reached: the result keeps the head and drops the
front of the tail. -/
theorem trimLoop_no_system (fuel : Nat) (a : ChatMessage) (t : List ChatMessage)
    (hsys : ∀ m ∈ t, m.role ≠ "system")
    (hfuel : t.length ≤ fuel + (MAX_HISTORY_MESSAGES - 1)) :
    trimLoop fuel (a :: t) = a :: t.drop (t.length + 1 - MAX_HISTORY_MESSAGES) := by
  induction fuel generalizing a t with
  | zero =>
    simp only [Nat.zero_add, MAX_HISTORY_MESSAGES] at hfuel ⊢
    have h0 : t.length + 1 - 50 = 0 := by omega
    rw [h0, List.drop_zero]
    rfl
  | succ n ih =>
    by_cases hlen : (a :: t).length > MAX_HISTORY_MESSAGES
    · cases t with
      | nil =>
        exfalso
        simp only [List.length_cons, List.length_nil, MAX_HISTORY_MESSAGES] at hlen
        omega
      | cons b rest =>
        have hbrole : ¬ (b.role == "system") = true := by
          simpa using hsys b (List.mem_cons_self b rest)
        rw [trimLoop_succ_cons, if_pos hlen, if_neg hbrole]
        have hrest : ∀ m ∈ rest, m.role ≠ "system" := fun m hm =>
          hsys m (List.mem_cons.mpr (Or.inr hm))
        have hfuel2 : rest.length ≤ n + (MAX_HISTORY_MESSAGES - 1) := by
          simp only [List.length_cons] at hfuel
          omega
        rw [ih a rest hrest hfuel2]
        simp only [List.length_cons, MAX_HISTORY_MESSAGES] at hlen ⊢
        have hsplit : rest.length + 1 + 1 - 50 = (rest.length + 1 - 50) + 1 := by omega
        rw [hsplit, List.drop_succ_cons]
    · rw [trimLoop_fixed (n + 1) (a :: t) (Or.inl (by omega))]
      have h0 : t.length + 1 - MAX_HISTORY_MESSAGES = 0 := by
        simp only [List.length_cons] at hlen
        omega
      rw [h0, List.drop_zero]

-- ── Lemmas about the tool loop ──────────────────────────────────────────────

/-- Definitional unfolding of one round of the tool loop. -/
theorem runToolLoop_succ (env : LoopEnv) (n : Nat) (req : ProviderRequest) (acc : String) :
    runToolLoop env (n + 1) req acc =
      match env.callProvider req with
      | Except.error e => { outcome := LoopOutcome.failed e, providerCalls := 1 }
      | Except.ok resp =>
        let acc2 := if resp.text == "" then acc else acc ++ resp.text
        if resp.tool_calls.isEmpty then
          { outcome := LoopOutcome.finished acc2, providerCalls := 1 }
        else
          let rest := runToolLoop env n
            { req with messages :=
                append_tool_round req.messages resp (executeToolCalls env resp.tool_calls) }
            acc2
          { outcome := rest.outcome, providerCalls := rest.providerCalls + 1 } := rfl

/-- The loop never makes more provider calls than it has rounds of fuel. -/
theorem runToolLoop_calls_le (env : LoopEnv) :
    ∀ (fuel : Nat) (req : ProviderRequest) (acc : String),
      (runToolLoop env fuel req acc).providerCalls ≤ fuel := by
  intro fuel
  induction fuel with
  | zero => intro req acc; exact Nat.le_refl 0
  | succ n ih =>
    intro req acc
    rw [runToolLoop_succ]
    cases hcall : env.callProvider req with
    | error e => simp
    | ok resp =>
      by_cases hempty : resp.tool_calls.isEmpty = true
      · simp [hempty]
      · simp only [hempty, if_false, Bool.false_eq_true]
        have hr := ih
          { req with messages :=
              append_tool_round req.messages resp (executeToolCalls env resp.tool_calls) }
          (if resp.text == "" then acc else acc ++ resp.text)
        omega

/-- A `failed` outcome can only originate from a provider error: tool
execution results never terminate the loop. -/
theorem runToolLoop_failed_from_provider (env : LoopEnv) :
    ∀ (fuel : Nat) (req : ProviderRequest) (acc : String) (e : String),
      (runToolLoop env fuel req acc).outcome = LoopOutcome.failed e →
      ∃ req2, env.callProvider req2 = Except.error e := by
  intro fuel
  induction fuel with
  | zero =>
    intro req acc e hout
    exact absurd hout (by simp [runToolLoop])
  | succ n ih =>
    intro req acc e hout
    rw [runToolLoop_succ] at hout
    cases hcall : env.callProvider req with
    | error e2 =>
      rw [hcall] at hout
      simp only at hout
      cases hout
      exact ⟨req, hcall⟩
    | ok resp =>
      rw [hcall] at hout
      by_cases hempty : resp.tool_calls.isEmpty = true
      · simp only [hempty, if_true] at hout
        cases hout
      · simp only [hempty, if_false, Bool.false_eq_true] at hout
        exact ih _ _ e hout

/-- When the provider answers every request with a response containing at
least one tool call, the loop consumes all its fuel, makes exactly one
provider call per round, and still ends in a `finished` outcome. -/
theorem runToolLoop_always_tools (env : LoopEnv)
    (halways : ∀ r, ∃ resp, env.callProvider r = Except.ok resp ∧ resp.tool_calls ≠ []) :
    ∀ (fuel : Nat) (req : ProviderRequest) (acc : String),
      ∃ final, runToolLoop env fuel req acc =
        { outcome := LoopOutcome.finished final, providerCalls := fuel } := by
  intro fuel
  induction fuel with
  | zero => intro req acc; exact ⟨acc, rfl⟩
  | succ n ih =>
    intro req acc
    obtain ⟨resp, hcall, hne⟩ := halways req
    have hempty : ¬ resp.tool_calls.isEmpty = true := by
      simpa [List.isEmpty_iff] using hne
    obtain ⟨final, hrec⟩ := ih
      { req with messages :=
          append_tool_round req.messages resp (executeToolCalls env resp.tool_calls) }
      (if resp.text == "" then acc else acc ++ resp.text)
    refine ⟨final, ?_⟩
    rw [runToolLoop_succ, hcall]
    simp only [hempty, if_false, Bool.false_eq_true, hrec]

-- ── Concrete inputs used by counterexamples and witnesses ───────────────────

/-- A provider response that always requests one tool call. -/
def respC1 : ModelResponse :=
  { text := "x",
    tool_calls := [{ id := "t1", name := "read_file", arguments := Json.null }] }

/-- An environment whose provider emits a tool call on every round. -/
def envC1 : LoopEnv :=
  { callProvider := fun _ => Except.ok respC1,
    execSecrets := fun _ _ => Except.ok "",
    execSkill := fun _ _ => Except.ok "",
    tools := [],
    workspace := "/w" }

/-- The reply accumulated over 25 rounds of `respC1`. -/
def replyC1 : String := String.mk (List.replicate MAX_TOOL_ROUNDS 'x')

/-- An environment with an empty catalog, a failing secrets handler, and a
provider that is down. -/
def envC2 : LoopEnv :=
  { callProvider := fun _ => Except.error "down",
    execSecrets := fun _ _ => Except.error "boom",
    execSkill := fun _ _ => Except.ok "",
    tools := [],
    workspace := "/w" }

/-- A minimal provider request for concrete runs. -/
def reqEx : ProviderRequest := { provider := "openai", model := "m", messages := [] }

-- ── C6 ──────────────────────────────────────────────────────────────────────

/-- C6: for every model behavior (any provider function, hence any infinite
sequence of responses, including one requesting a tool call on every
round), the tool loop performs at most `MAX_TOOL_ROUNDS = 25` provider
rounds; termination is by construction of the total function
`runToolLoop`. -/
theorem claim_C6_loop_bounded (env : LoopEnv) (req : ProviderRequest) (acc : String) :
    (runToolLoop env MAX_TOOL_ROUNDS req acc).providerCalls ≤ MAX_TOOL_ROUNDS :=
  runToolLoop_calls_le env MAX_TOOL_ROUNDS req acc

-- ── C2 ──────────────────────────────────────────────────────────────────────

/-- C2: a failing tool execution — the dispatched executor returns an error
string, or the tool name is unknown to the catalog — yields a tool result
with `is_error = true` carrying the call's id; every requested call
produces exactly one result at its position (the loop continues with the
remaining calls); and a `failed` loop outcome can only come from a
provider error, never from a tool result. -/
theorem claim_C2_tool_errors_nonfatal (env : LoopEnv) :
    (∀ tc e, dispatch_tool_call env tc = Except.error e →
      run_tool_call env tc = { id := tc.id, name := tc.name, output := e, is_error := true }) ∧
    (∀ name args ws, env.tools.find? (fun t => t.name == name) = none →
      execute_tool env.tools name args ws = Except.error ("Unknown tool: " ++ name)) ∧
    (∀ calls : List ToolCall, (executeToolCalls env calls).length = calls.length) ∧
    (∀ (calls : List ToolCall) (i : Nat) (hi : i < calls.length),
      (executeToolCalls env calls)[i]? = some (run_tool_call env (calls.get ⟨i, hi⟩)) ∧
      (run_tool_call env (calls.get ⟨i, hi⟩)).id = (calls.get ⟨i, hi⟩).id) ∧
    (∀ (fuel : Nat) (req : ProviderRequest) (acc e : String),
      (runToolLoop env fuel req acc).outcome = LoopOutcome.failed e →
      ∃ req2, env.callProvider req2 = Except.error e) := by
  refine ⟨?_, ?_, ?_, ?_, runToolLoop_failed_from_provider env⟩
  · intro tc e hdisp
    unfold run_tool_call
    rw [hdisp]
  · intro name args ws hfind
    unfold execute_tool
    rw [hfind]
  · intro calls
    unfold executeToolCalls
    exact List.length_map calls (run_tool_call env)
  · intro calls i hi
    constructor
    · unfold executeToolCalls
      rw [List.getElem?_map]
      rw [List.getElem?_eq_getElem hi]
      rfl
    · unfold run_tool_call
      cases dispatch_tool_call env (calls.get ⟨i, hi⟩) <;> rfl

/-- Witness for C2: in `envC2`, the unknown tool `nope` produces an
`is_error` result with the call's id and the `Unknown tool:` text; the
failing secrets handler produces an `is_error` result; and a `failed`
outcome only arises from the (down) provider. -/
theorem claim_C2_witness :
    run_tool_call envC2 { id := "t1", name := "nope", arguments := Json.null } =
      { id := "t1", name := "nope", output := "Unknown tool: nope", is_error := true } ∧
    run_tool_call envC2 { id := "t2", name := "secrets_get", arguments := Json.null } =
      { id := "t2", name := "secrets_get", output := "boom", is_error := true } ∧
    ∃ req2, envC2.callProvider req2 = Except.error "down" := by
  have h := claim_C2_tool_errors_nonfatal envC2
  refine ⟨?_, ?_, ?_⟩
  · exact h.1 { id := "t1", name := "nope", arguments := Json.null } "Unknown tool: nope" rfl
  · exact h.1 { id := "t2", name := "secrets_get", arguments := Json.null } "boom" rfl
  · exact h.2.2.2.2 1 reqEx "" "down" rfl

-- ── C1 ──────────────────────────────────────────────────────────────────────

/-- C1 counterexample: with a provider that emits a tool call on every
round (`envC1`), all 25 rounds are consumed, yet `process_incoming_message`
returns `Ok` — the accumulated text is delivered as an ordinary reply and
no `loop-capped` error exists anywhere on this path, contradicting the
claim that the loop "terminates with a `loop-capped` error … rather than
returning normally". -/
theorem claim_C1_counterexample :
    envC1.callProvider = (fun _ => Except.ok respC1) ∧
    respC1.tool_calls ≠ [] ∧
    (runToolLoop envC1 MAX_TOOL_ROUNDS reqEx "").providerCalls = MAX_TOOL_ROUNDS ∧
    process_incoming_message envC1 "openai" "m" [] "sys" "hi" =
      Except.ok ([userMsg "hi", assistantMsg replyC1], some replyC1) := by
  refine ⟨rfl, by simp [respC1], rfl, rfl⟩

/-- C1 (amended): if each of the first 25 rounds yields a provider response
containing at least one tool call, the loop stops after exactly 25
provider calls and `process_incoming_message` returns normally: the
accumulated reply text is stored and delivered as an ordinary reply
(subject only to the sentinel/empty send check); no error is produced. -/
theorem claim_C1_amended (env : LoopEnv) (provider model : String)
    (oldH : List ChatMessage) (sp u : String)
    (halways : ∀ r, ∃ resp, env.callProvider r = Except.ok resp ∧ resp.tool_calls ≠ []) :
    ∃ final,
      runToolLoop env MAX_TOOL_ROUNDS
          { provider := provider, model := model,
            messages := buildWorkingMessages oldH sp u } "" =
        { outcome := LoopOutcome.finished final, providerCalls := MAX_TOOL_ROUNDS } ∧
      process_incoming_message env provider model oldH sp u =
        Except.ok (updateHistory oldH u final, sendDecision final) := by
  obtain ⟨final, hrun⟩ := runToolLoop_always_tools env halways MAX_TOOL_ROUNDS
    { provider := provider, model := model, messages := buildWorkingMessages oldH sp u } ""
  refine ⟨final, hrun, ?_⟩
  simp only [process_incoming_message]
  rw [hrun]

/-- Witness for C1 (amended): the always-tool-calling environment `envC1`
satisfies the hypothesis, and the concrete run returns normally. -/
theorem claim_C1_witness :
    ∃ final,
      runToolLoop envC1 MAX_TOOL_ROUNDS
          { provider := "openai", model := "m",
            messages := buildWorkingMessages [] "sys" "hi" } "" =
        { outcome := LoopOutcome.finished final, providerCalls := MAX_TOOL_ROUNDS } ∧
      process_incoming_message envC1 "openai" "m" [] "sys" "hi" =
        Except.ok (updateHistory [] "hi" final, sendDecision final) :=
  claim_C1_amended envC1 "openai" "m" [] "sys" "hi"
    (fun r => ⟨respC1, rfl, by simp [respC1]⟩)

-- ── C3 ──────────────────────────────────────────────────────────────────────

/-- C3: after trimming, either the history is empty or the message at
index 0 is unchanged — in particular, when index 0 held the system
message before trimming, the same system message is at index 0 after
(trimming removes from index 1 upward only). -/
theorem claim_C3_trim_preserves_head (h : List ChatMessage) :
    trimHistory h = [] ∨ (trimHistory h).head? = h.head? :=
  Or.inr (trimLoop_head? h.length h)

-- ── C9 ──────────────────────────────────────────────────────────────────────

/-- C9: the trimming step is idempotent — applying it twice yields the same
history as applying it once. -/
theorem claim_C9_trim_idempotent (h : List ChatMessage) :
    trimHistory (trimHistory h) = trimHistory h :=
  trimLoop_fixed (trimLoop h.length h).length (trimLoop h.length h)
    (trimLoop_post h.length h (Nat.le_add_right h.length MAX_HISTORY_MESSAGES))

-- ── C4 ──────────────────────────────────────────────────────────────────────

/-- A 51-entry history with no system message anywhere: a distinguished
oldest entry followed by 50 later user messages. -/
def hist51ex : List ChatMessage := userMsg "oldest" :: List.replicate 50 (userMsg "later")

/-- C4 counterexample: on a 51-entry history with no system message, the
trim loop never removes index 0 — the oldest entry survives (the entry at
index 1 is removed instead) and trimming stops at length 50, the cap
itself, not strictly under it.  This contradicts the claim that with no
system message "the oldest entries, including the message at index 0, are
eligible for removal until the history is under the cap". -/
theorem claim_C4_counterexample :
    hist51ex.length = 51 ∧
    (hist51ex.all fun m => m.role != "system") = true ∧
    trimHistory hist51ex = userMsg "oldest" :: List.replicate 49 (userMsg "later") ∧
    (trimHistory hist51ex).length = 50 := by
  have hsys : ∀ m ∈ List.replicate 50 (userMsg "later"), m.role ≠ "system" := by
    intro m hm
    rw [List.eq_of_mem_replicate hm]
    decide
  have htrim : trimHistory hist51ex =
      userMsg "oldest" :: (List.replicate 50 (userMsg "later")).drop
        ((List.replicate 50 (userMsg "later")).length + 1 - MAX_HISTORY_MESSAGES) :=
    trimLoop_no_system hist51ex.length (userMsg "oldest")
      (List.replicate 50 (userMsg "later")) hsys (by decide)
  have h3 : trimHistory hist51ex = userMsg "oldest" :: List.replicate 49 (userMsg "later") := by
    rw [htrim]
    rfl
  exact ⟨rfl, rfl, h3, by rw [h3]; rfl⟩

/-- C4 (amended): when the history contains no system message at all and
has grown past the 50-entry cap, trimming still treats index 0 as
irremovable: it removes from index 1 upward (second-oldest first), keeps
the head, and stops when the length reaches the cap (50, not strictly
under it). -/
theorem claim_C4_amended (h : List ChatMessage)
    (hsys : ∀ m ∈ h, m.role ≠ "system")
    (hlen : h.length > MAX_HISTORY_MESSAGES) :
    (trimHistory h).head? = h.head? ∧
    (trimHistory h).length = MAX_HISTORY_MESSAGES ∧
    ∃ a t, h = a :: t ∧ trimHistory h = a :: t.drop (h.length - MAX_HISTORY_MESSAGES) := by
  cases h with
  | nil => simp at hlen
  | cons a t =>
    have hsys2 : ∀ m ∈ t, m.role ≠ "system" := fun m hm =>
      hsys m (List.mem_cons.mpr (Or.inr hm))
    have htrim : trimHistory (a :: t) =
        a :: t.drop (t.length + 1 - MAX_HISTORY_MESSAGES) :=
      trimLoop_no_system (a :: t).length a t hsys2
        (by simp only [List.length_cons]; omega)
    refine ⟨trimLoop_head? _ _, ?_, a, t, rfl, ?_⟩
    · rw [htrim]
      simp only [List.length_cons, List.length_drop] at *
      simp only [MAX_HISTORY_MESSAGES] at *
      omega
    · rw [htrim]
      simp only [List.length_cons]

/-- Witness for C4 (amended), at the concrete 51-entry no-system history. -/
theorem claim_C4_witness :
    hist51ex.length > MAX_HISTORY_MESSAGES ∧
    (trimHistory hist51ex).length = MAX_HISTORY_MESSAGES ∧
    (trimHistory hist51ex).head? = hist51ex.head? := by
  have hsys : ∀ m ∈ hist51ex, m.role ≠ "system" := by
    intro m hm
    rcases List.mem_cons.mp hm with h1 | h2
    · rw [h1]; decide
    · rw [List.eq_of_mem_replicate h2]; decide
  have hlen : hist51ex.length > MAX_HISTORY_MESSAGES := by decide
  have h := claim_C4_amended hist51ex hsys hlen
  exact ⟨hlen, h.2.1, h.1⟩

-- ── C10 ─────────────────────────────────────────────────────────────────────

/-- C10: the stored per-chat history only ever receives `user` and
`assistant` messages.  The history update appends the user message and
(when non-empty) the assistant reply to the stored history and trims; the
system prompt lives only in the per-request working copy
(`buildWorkingMessages`), and tool rounds are appended only to the
provider request inside the loop — so if every stored message had role
`user` or `assistant`, that is still true after processing a message. -/
theorem claim_C10_store_roles (old : List ChatMessage) (u f : String)
    (hold : ∀ m ∈ old, m.role = "user" ∨ m.role = "assistant") :
    ∀ m ∈ updateHistory old u f, m.role = "user" ∨ m.role = "assistant" := by
  intro m hm
  simp only [updateHistory, trimHistory] at hm
  have hm2 := trimLoop_mem _ _ m hm
  by_cases hf : (f == "") = true
  · rw [if_pos hf] at hm2
    rcases List.mem_append.mp hm2 with h1 | h2
    · exact hold m h1
    · left
      rw [List.mem_singleton.mp h2]
      rfl
  · rw [if_neg hf] at hm2
    rcases List.mem_append.mp hm2 with h12 | h3
    · rcases List.mem_append.mp h12 with h1 | h2
      · exact hold m h1
      · left
        rw [List.mem_singleton.mp h2]
        rfl
    · right
      rw [List.mem_singleton.mp h3]
      rfl

/-- Witness for C10: processing a message against an empty store leaves a
store holding only `user`/`assistant` roles. -/
theorem claim_C10_witness :
    (updateHistory [] "hi" "yo").all
      (fun m => m.role == "user" || m.role == "assistant") = true := by
  have h := claim_C10_store_roles [] "hi" "yo" (by intro m hm; simp at hm)
  rw [List.all_eq_true]
  intro m hm
  rcases h m hm with h1 | h1 <;> simp [h1]

-- ── C8 ──────────────────────────────────────────────────────────────────────

/-- C8: a final reply that trims to exactly `NO_REPLY` or `HEARTBEAT_OK`
suppresses the outbound messenger send; any other non-empty reply is sent
back to the originating chat. -/
theorem claim_C8_sentinel_suppression (final : String) :
    ((strTrim final = "NO_REPLY" ∨ strTrim final = "HEARTBEAT_OK") →
      sendDecision final = none) ∧
    (final ≠ "" → strTrim final ≠ "NO_REPLY" → strTrim final ≠ "HEARTBEAT_OK" →
      sendDecision final = some final) := by
  constructor
  · intro hs
    unfold sendDecision
    rcases hs with h | h <;> simp [h]
  · intro h1 h2 h3
    unfold sendDecision
    simp [String.isEmpty_iff, h1, h2, h3]

/-- Witness for C8: the sentinels — bordered by ASCII whitespace or by a
Unicode no-break space — are suppressed; an ordinary reply is sent. -/
theorem claim_C8_witness :
    sendDecision "  NO_REPLY\n" = none ∧
    sendDecision "NO_REPLY\u00A0" = none ∧
    sendDecision "HEARTBEAT_OK" = none ∧
    sendDecision "hello" = some "hello" := by
  refine ⟨?_, ?_, ?_, ?_⟩
  · exact (claim_C8_sentinel_suppression "  NO_REPLY\n").1 (Or.inl (by decide))
  · exact (claim_C8_sentinel_suppression "NO_REPLY\u00A0").1 (Or.inl (by decide))
  · exact (claim_C8_sentinel_suppression "HEARTBEAT_OK").1 (Or.inr (by decide))
  · exact (claim_C8_sentinel_suppression "hello").2 (by decide) (by decide) (by decide)

-- ── C5 ──────────────────────────────────────────────────────────────────────

/-- An access context with every grant flag set. -/
def ctxC5 : AccessContext :=
  { user_approved := true, authenticated := true, active_skill := some "mail" }

/-- A disabled credential whose policy grants unconditionally. -/
def recDisabledEx : VaultRecord :=
  { name := "github",
    entry := { label := "GitHub token", kind := SecretKind.token,
               policy := AccessPolicy.always, description := none,
               disabled := true },
    value := "ghp-1" }

/-- C5 counterexample: a disabled entry falsifies the claim's "returns the
value exactly when the entry's policy grants" — its `always` policy grants
unconditionally, yet `get` returns the distinct `disabled` failure rather
than the value (spec §4.1 lists `disabled` as a failure separate from
`policy-denied`; src/src/secrets/types.rs documents that a disabled
credential's value cannot be read). -/
theorem claim_C5_counterexample :
    policyGrants recDisabledEx.entry.policy ctxC5 = true ∧
    vault_get [recDisabledEx] "github" ctxC5 = Except.error VaultError.disabled ∧
    ¬ vault_get [recDisabledEx] "github" ctxC5 = Except.ok recDisabledEx.value := by
  refine ⟨rfl, rfl, fun h => ?_⟩
  rw [show vault_get [recDisabledEx] "github" ctxC5 =
    Except.error VaultError.disabled from rfl] at h
  exact Except.noConfusion h

/-- C5 (amended): for every *enabled* credential entry, the vault `get`
returns the value exactly when the entry's policy grants under the
context, with the grant table: `always` unconditionally, `with-approval`
iff `user_approved`, `with-auth` iff `authenticated`, `skill-only(S)` iff
the active skill is a member of `S` — so `skill-only []` never grants;
a disabled entry never returns its value, failing with the distinct
`disabled` error regardless of its policy. -/
theorem claim_C5_policy_evaluation (records : List VaultRecord) (name : String)
    (r : VaultRecord) (ctx : AccessContext)
    (hfind : records.find? (fun x => x.name == name) = some r)
    (hdis : r.entry.disabled = false) :
    (vault_get records name ctx = Except.ok r.value ↔
      policyGrants r.entry.policy ctx = true) ∧
    policyGrants AccessPolicy.always ctx = true ∧
    policyGrants AccessPolicy.withApproval ctx = ctx.user_approved ∧
    policyGrants AccessPolicy.withAuth ctx = ctx.authenticated ∧
    (∀ S : List String, policyGrants (AccessPolicy.skillOnly S) ctx = true ↔
      ∃ s, ctx.active_skill = some s ∧ s ∈ S) ∧
    (∀ c : AccessContext, policyGrants (AccessPolicy.skillOnly []) c = false) ∧
    (∀ (recs : List VaultRecord) (n : String) (c : AccessContext) (r2 : VaultRecord),
      recs.find? (fun x => x.name == n) = some r2 → r2.entry.disabled = true →
      vault_get recs n c = Except.error VaultError.disabled) := by
  refine ⟨?_, rfl, rfl, rfl, ?_, ?_, ?_⟩
  · unfold vault_get
    rw [hfind]
    simp only [hdis, Bool.false_eq_true, if_false]
    by_cases hg : policyGrants r.entry.policy ctx = true
    · simp [hg]
    · simp [hg]
  · intro S
    unfold policyGrants
    cases hact : ctx.active_skill with
    | none => simp [hact]
    | some s => simp [hact]
  · intro c
    unfold policyGrants
    cases c.active_skill <;> rfl
  · intro recs n c r2 hfind2 hdis2
    unfold vault_get
    rw [hfind2]
    simp [hdis2]

/-- A context running the `mail` skill, neither approved nor
authenticated. -/
def ctxEx : AccessContext :=
  { user_approved := false, authenticated := false, active_skill := some "mail" }

/-- One enabled skill-gated credential record. -/
def recEx : VaultRecord :=
  { name := "anthropic",
    entry := { label := "Anthropic key", kind := SecretKind.apiKey,
               policy := AccessPolicy.skillOnly ["mail"], description := none,
               disabled := false },
    value := "sk-123" }

/-- Witness for C5 (amended): the enabled skill-gated credential is
released to a context whose active skill is in the policy's list, and the
disabled entry fails with the `disabled` error. -/
theorem claim_C5_witness :
    vault_get [recEx] "anthropic" ctxEx = Except.ok "sk-123" ∧
    policyGrants (AccessPolicy.skillOnly []) ctxEx = false ∧
    vault_get [recDisabledEx] "github" ctxEx = Except.error VaultError.disabled := by
  have h := claim_C5_policy_evaluation [recEx] "anthropic" recEx ctxEx rfl rfl
  exact ⟨h.1.mpr rfl, h.2.2.2.2.2.1 ctxEx,
    h.2.2.2.2.2.2 [recDisabledEx] "github" ctxEx recDisabledEx rfl rfl⟩

-- ── C7 ──────────────────────────────────────────────────────────────────────

/-- The text handler never emits a hello frame: its result is always a
`response` or an `error`. -/
theorem handle_text_message_not_hello (parse : String → Option ChatRequest)
    (call : ChatRequest → Except String String) (t : String) :
    (handle_text_message parse call t).isHello = false := by
  cases hp : parse t with
  | none => simp [handle_text_message, hp, GatewayReply.isHello]
  | some req =>
    by_cases hm : (req.msg_type == "chat") = true
    · cases hc : call req with
      | ok reply => simp [handle_text_message, hp, hm, hc, GatewayReply.isHello]
      | error e => simp [handle_text_message, hp, hm, hc, GatewayReply.isHello]
    · simp [handle_text_message, hp, hm, GatewayReply.isHello]

/-- The receive loop never emits a hello frame. -/
theorem processFrames_no_hello (parse : String → Option ChatRequest)
    (call : ChatRequest → Except String String) (frames : List WsIncoming) :
    (processFrames parse call frames).countP (fun f => f.isHello) = 0 := by
  induction frames with
  | nil => rfl
  | cons f rest ih =>
    cases f with
    | text t =>
      simp only [processFrames]
      rw [List.countP_cons_of_neg _ _ (by simp [handle_text_message_not_hello])]
      exact ih
    | binary p =>
      simp only [processFrames]
      rw [List.countP_cons_of_neg _ _ (by simp [GatewayReply.isHello])]
      exact ih
    | close => rfl
    | ping p =>
      simp only [processFrames]
      rw [List.countP_cons_of_neg _ _ (by simp [GatewayReply.isHello])]
      exact ih
    | pong p =>
      simp only [processFrames]
      exact ih

/-- C7: on connect, the connection handler's output starts with — and
contains exactly one — hello frame carrying the agent name `rustyclaw` and
the settings directory; and every inbound text frame that does not parse
as a chat envelope of type `chat` is answered with the echo response
carrying the inbound text verbatim. -/
theorem claim_C7_hello_and_echo (parse : String → Option ChatRequest)
    (call : ChatRequest → Except String String) (sd : String)
    (frames : List WsIncoming) :
    (handle_connection parse call sd frames).head? =
      some (GatewayReply.hello "rustyclaw" sd) ∧
    (handle_connection parse call sd frames).countP (fun f => f.isHello) = 1 ∧
    (∀ t, (∀ r, parse t = some r → r.msg_type ≠ "chat") →
      handle_text_message parse call t = GatewayReply.response true t) := by
  refine ⟨rfl, ?_, ?_⟩
  · unfold handle_connection
    rw [List.countP_cons_of_pos _ _ (by rfl), processFrames_no_hello]
  · intro t hpt
    cases hp : parse t with
    | none => simp [handle_text_message, hp]
    | some req =>
      have hne : ¬ (req.msg_type == "chat") = true := by simpa using hpt req hp
      simp [handle_text_message, hp, hne]

/-- Witness for C7, realizing the spec's literal echo scenario: a client
connects and sends the raw (non-JSON) text frame `ping`; the output is one
hello frame followed by the echo response carrying `ping`. -/
theorem claim_C7_witness :
    handle_connection (fun _ => none) (fun _ => Except.ok "") "/settings"
        [WsIncoming.text "ping"] =
      [GatewayReply.hello "rustyclaw" "/settings", GatewayReply.response true "ping"] ∧
    handle_text_message (fun _ => none) (fun _ => Except.ok "") "ping" =
      GatewayReply.response true "ping" := by
  have h := claim_C7_hello_and_echo (fun _ => none) (fun _ => Except.ok "")
    "/settings" [WsIncoming.text "ping"]
  exact ⟨rfl, h.2.2 "ping" (fun r hr => nomatch hr)⟩
